import Mathlib

/-!
Shallow embedding of the EpixZone Claimer-API (index.js) for verification.

All balances are non-negative integers in the smallest unit (satoshis).
JavaScript `BigInt` arithmetic on non-negative values coincides with ℕ
arithmetic (`/` is truncating division, which on non-negative operands is
floor division, i.e. `Nat.div`), so the embedding uses `Nat` throughout;
the one signed comparison in the source (`remaining > 0n`, where
`remaining = TARGET_BALANCE_SATS - totalFinalBalance`) is rendered as
`totalFinalBalance < TARGET_BALANCE_SATS`, which is equivalent over ℤ.
-/

namespace Claimer

/-- Fixed-point scale: 10^8 smallest units per whole coin (`BigInt(100000000)`
in index.js). -/
def SCALE : Nat := 100000000

/-- `const TOTAL_SUPPLY = 23689538;` (whole coins). -/
def TOTAL_SUPPLY : Nat := 23689538

/-- `const TARGET_BALANCE = TOTAL_SUPPLY / 2;` — 23689538 is even so the JS
float division is exact. -/
def TARGET_BALANCE : Nat := TOTAL_SUPPLY / 2

/-- `const TARGET_BALANCE_SATS = BigInt(TARGET_BALANCE * 100000000);` —
the product 1184476900000000 is below 2^53 so the JS float product is exact. -/
def TARGET_BALANCE_SATS : Nat := TARGET_BALANCE * SCALE

/-- One row of the `Snapshots` table as read by `/download-csv`
(`epix_address`, `snapshot_balance`). -/
structure SnapshotRow where
  epix_address : String
  snapshot_balance : Nat
deriving Repr, DecidableEq

/-- One `aggregatedBalances.set(...)` step: a JS `Map` updates an existing
key in place (keeping its position) and appends a new key at the end. -/
def aggInsert : List (String × Nat) → String → Nat → List (String × Nat)
  | [], a, b => [(a, b)]
  | (k, v) :: rest, a, b =>
      if k = a then (k, v + b) :: rest else (k, v) :: aggInsert rest a b

/-- The aggregation loop `snapshots.forEach(...)` building `aggregatedBalances`:
balances of duplicate EPIX addresses are summed; iteration order of the
resulting `Map` is first-appearance order of the rows (the query orders rows
by `id ASC`). -/
def aggregate (rows : List SnapshotRow) : List (String × Nat) :=
  rows.foldl (fun acc r => aggInsert acc r.epix_address r.snapshot_balance) []

/-- `totalClaimedRaw`: sum of the aggregated balances. -/
def sumBalances (entries : List (String × Nat)) : Nat :=
  (entries.map Prod.snd).sum

/-- `multiplierBigInt`: `totalClaimedRaw > TARGET_BALANCE_SATS ?
((TARGET_BALANCE_SATS * BigInt(100000000)) / totalClaimedRaw) :
BigInt(100000000)`, parameterised by the cap. -/
def multiplierBigInt (cap total : Nat) : Nat :=
  if total > cap then cap * SCALE / total else SCALE

/-- The per-entry loop of `/download-csv` (`aggregatedEntries.map(...)`):
each entry gets `floor(originalBalance * multiplier / SCALE)`; the last
entry (index `lastIndex`) is overridden with `remaining =
TARGET_BALANCE_SATS - totalFinalBalance` whenever `remaining > 0n`.
`acc` is the running `totalFinalBalance`. -/
def redistribute (cap m : Nat) : Nat → List (String × Nat) → List (String × Nat)
  | _, [] => []
  | acc, [(a, b)] =>
      -- last entry: `if (remaining > 0n) finalBalance = remaining;`
      let f := if acc < cap then cap - acc else b * m / SCALE
      [(a, f)]
  | acc, (a, b) :: e :: rest =>
      let f := b * m / SCALE
      (a, f) :: redistribute cap m (acc + f) (e :: rest)

/-- Final balances computed by `/download-csv` for a list of table rows:
aggregate, derive the multiplier from the aggregated total, and run the
redistribution loop with `totalFinalBalance = 0n`. -/
def downloadCsvBalances (rows : List SnapshotRow) : List (String × Nat) :=
  let entries := aggregate rows
  redistribute TARGET_BALANCE_SATS
    (multiplierBigInt TARGET_BALANCE_SATS (sumBalances entries)) 0 entries

/-! ### The `/verify-snapshot` endpoint (C5, C6, C7, C9)

An `axios` call either resolves with a value or rejects; a rejected promise
(network error, timeout, non-2xx status) — and likewise a TypeError thrown
while destructuring a malformed response body — propagates to the handler's
`catch`, which answers HTTP 500. -/

inductive CallResult (α : Type) where
  | throw : CallResult α
  | ok : α → CallResult α
deriving Repr, DecidableEq

/-- The JSON body of a `/verify-snapshot` request plus the `signature`
header (`none` = header absent). -/
structure VerifyRequest where
  x42_address : String
  epix_address : String
  snapshot_balance : Nat
  signature : Option String
deriving Repr, DecidableEq

/-- A row of the `Snapshots` table as written by `Snapshot.create`
(`raw_json` is the request body, which these fields reproduce). -/
structure Claim where
  signature : String
  x42_address : String
  epix_address : String
  snapshot_balance : Nat
deriving Repr, DecidableEq

/-- Column options of the Sequelize `Snapshot` model in index.js: every
column has `allowNull: false`, and no column declares `unique: true`
(Sequelize adds a unique constraint only when the `unique` option is given,
so all five columns carry `unique = false`). -/
structure ColumnDef where
  allowNull : Bool
  unique : Bool
deriving Repr, DecidableEq

def snapshotModelColumns : List (String × ColumnDef) :=
  [("raw_json", ⟨false, false⟩),
   ("signature", ⟨false, false⟩),
   ("x42_address", ⟨false, false⟩),
   ("epix_address", ⟨false, false⟩),
   ("snapshot_balance", ⟨false, false⟩)]

/-- The value a stored row holds in a named column, rendered as text, for
comparing rows under a column constraint. -/
def Claim.colValue (c : Claim) : String → String
  | "signature" => c.signature
  | "x42_address" => c.x42_address
  | "epix_address" => c.epix_address
  | "snapshot_balance" => toString c.snapshot_balance
  | _ => ""

/-- `Snapshot.create`: the INSERT fails with a duplicate error exactly when
some column declared `unique` collides with an existing row; with the model
above no column is unique, so the insert always appends. -/
def storeInsert (store : List Claim) (c : Claim) : Option (List Claim) :=
  if snapshotModelColumns.any
      (fun col => col.2.unique && store.any
        (fun r => r.colValue col.1 = c.colValue col.1)) then
    none
  else
    some (store ++ [c])

/-- The payload of the Discord webhook message built in `utils/discord.js`:
the embed's address field (`x42 Address`) and the balance shown in the
`Amount` field. -/
structure NotifyDispatch where
  x42Address : String
  snapshotBalance : Nat
deriving Repr, DecidableEq

/-- `utils/discord.js`: `sendSnapshotVerificationNotification(x42Address,
snapshotBalance)` returns `false` without posting when `DISCORD_WEBHOOK_URL`
is unset; otherwise it POSTs a webhook message whose embed carries the given
x42 address and balance, returning `true` when the POST resolves and `false`
when it rejects (the error is only logged). The result pairs the returned
boolean with the posted message, if one was sent. -/
def sendSnapshotVerificationNotification (x42Address : String)
    (snapshotBalance : Nat) (webhookConfigured : Bool) (post : CallResult Unit) :
    Bool × Option NotifyDispatch :=
  if !webhookConfigured then (false, none)
  else match post with
    | .throw => (false, some ⟨x42Address, snapshotBalance⟩)
    | .ok _ => (true, some ⟨x42Address, snapshotBalance⟩)

/-- `new Date('2025-06-06T00:00:00Z')` as milliseconds since the epoch. -/
def claimDeadlineMs : Nat := 1749168000000

/-- The designated snapshot height checked by `tipHeight != 3000000`. -/
def snapshotHeight : Nat := 3000000

/-- Environment of one `/verify-snapshot` invocation: outcomes of the three
chain calls, the wall clock, and the Discord webhook configuration/outcome.
`tipCall = .ok d` is a resolved `addressindexertip` response whose
`tipHeight` field is `d` (`none` = `data`/`tipHeight` absent); the guard
`!blockHeightResponse.data || !blockHeightResponse.data.tipHeight` also
fires on `tipHeight == 0`, which is falsy. -/
structure ChainEnv where
  tipCall : CallResult (Option Nat)
  nowMs : Nat
  balanceCall : CallResult Nat
  verifyCall : CallResult String
  webhookConfigured : Bool
  webhookPost : CallResult Unit
deriving Repr, DecidableEq

structure HttpResponse where
  status : Nat
  body : String
deriving Repr, DecidableEq

/-- Result of a `/verify-snapshot` invocation: the HTTP response, the table
contents afterwards, and — when a Discord dispatch was issued — its
(ignored) boolean outcome together with the message it posted. -/
structure VerifyOutcome where
  response : HttpResponse
  store : List Claim
  notify : Option (Bool × Option NotifyDispatch)
deriving Repr, DecidableEq

/-- `!signature`: the header is absent or the empty string (both falsy). -/
def signatureMissing (req : VerifyRequest) : Bool :=
  match req.signature with
  | none => true
  | some s => s = ""

/-- The `app.post('/verify-snapshot')` handler, check for check in source
order: missing signature, block height (call, then falsy data, then the
height gate), claim deadline, duplicate pre-check via `findOne`, balance
call and strict comparison, signature verification call and strict
comparison against `"True"`, then `Snapshot.create` and the fire-and-forget
Discord dispatch whose boolean result only feeds a log line. -/
def verifySnapshot (req : VerifyRequest) (env : ChainEnv) (store : List Claim) :
    VerifyOutcome :=
  if signatureMissing req then
    ⟨⟨400, "Signature is required"⟩, store, none⟩
  else
    match env.tipCall with
    | .throw => ⟨⟨500, "Internal server error"⟩, store, none⟩
    | .ok d =>
      if d = none ∨ d = some 0 then
        ⟨⟨400, "Unable to retrieve block height"⟩, store, none⟩
      else if d ≠ some snapshotHeight then
        ⟨⟨400, "Block height must be at 3,000,000 blocks"⟩, store, none⟩
      else if env.nowMs > claimDeadlineMs then
        ⟨⟨400, "Claim period has ended. The deadline was June 6th, 2025 at 00:00:00 UTC"⟩,
          store, none⟩
      else if store.any (fun c => c.x42_address = req.x42_address) then
        ⟨⟨400, "Duplicate address. Snapshot was already verified."⟩, store, none⟩
      else
        match env.balanceCall with
        | .throw => ⟨⟨500, "Internal server error"⟩, store, none⟩
        | .ok b =>
          if b ≠ req.snapshot_balance then
            ⟨⟨400, "Balance verification failed"⟩, store, none⟩
          else
            match env.verifyCall with
            | .throw => ⟨⟨500, "Internal server error"⟩, store, none⟩
            | .ok v =>
              if v ≠ "True" then
                ⟨⟨400, "Signature verification failed"⟩, store, none⟩
              else
                match storeInsert store
                    ⟨req.signature.getD "", req.x42_address,
                      req.epix_address, req.snapshot_balance⟩ with
                | none =>
                    -- a rejected `create` would land in the handler's catch
                    ⟨⟨500, "Internal server error"⟩, store, none⟩
                | some store2 =>
                    -- `sendSnapshotVerificationNotification(x42_address, snapshot_balance)`
                    ⟨⟨200, "Snapshot verified and stored successfully"⟩, store2,
                      some (sendSnapshotVerificationNotification
                        req.x42_address req.snapshot_balance
                        env.webhookConfigured env.webhookPost)⟩

/-- Written from the spec wording of the check order (C5), for comparison
with `verifySnapshot`: the reported outcome is that of the first failing
check in the fixed order missing-signature, snapshot-height, claim-deadline,
duplicate-address, balance, signature; a thrown chain call is the internal
ERROR outcome, and the balance check fails exactly on strict inequality. -/
def specFirstFailingOutcome (req : VerifyRequest) (env : ChainEnv)
    (store : List Claim) : HttpResponse :=
  if signatureMissing req then ⟨400, "Signature is required"⟩
  else match env.tipCall with
    | .throw => ⟨500, "Internal server error"⟩
    | .ok d =>
      if d = none ∨ d = some 0 then ⟨400, "Unable to retrieve block height"⟩
      else if d ≠ some snapshotHeight then
        ⟨400, "Block height must be at 3,000,000 blocks"⟩
      else if env.nowMs > claimDeadlineMs then
        ⟨400, "Claim period has ended. The deadline was June 6th, 2025 at 00:00:00 UTC"⟩
      else if store.any (fun c => c.x42_address = req.x42_address) then
        ⟨400, "Duplicate address. Snapshot was already verified."⟩
      else match env.balanceCall with
        | .throw => ⟨500, "Internal server error"⟩
        | .ok b =>
          if b ≠ req.snapshot_balance then ⟨400, "Balance verification failed"⟩
          else match env.verifyCall with
            | .throw => ⟨500, "Internal server error"⟩
            | .ok v =>
              if v ≠ "True" then ⟨400, "Signature verification failed"⟩
              else ⟨200, "Snapshot verified and stored successfully"⟩

/-! ### CSV field escaping (C8) -/

/-- The characters that force quoting in `escapeCsvField`: the delimiter,
the double quote, and the newline characters LF and CR. -/
def csvSpecial (c : Char) : Bool :=
  c = ',' || c = '"' || c = '\n' || c = '\r'

/-- `stringField.includes(',') || stringField.includes('"') ||
stringField.includes('\n') || stringField.includes('\r')`. -/
def needsQuoting (s : String) : Bool := s.data.any csvSpecial

/-- `stringField.replace(/"/g, '""')`, on the character list. -/
def escQuotes : List Char → List Char
  | [] => []
  | c :: cs => if c = '"' then '"' :: '"' :: escQuotes cs else c :: escQuotes cs

/-- `escapeCsvField` for a present field (`null`/`undefined` fields become
the empty string upstream and are irrelevant to this claim): quote-wrap with
internal quotes doubled when the field contains a special character,
otherwise return the field unchanged. -/
def escapeCsvField (s : String) : String :=
  if needsQuoting s then "\"" ++ String.mk (escQuotes s.data) ++ "\"" else s

/-- Spec-side description of the doubling: every `"` becomes `""`, every
other character stays. -/
def doubleQuotesSpec (l : List Char) : List Char :=
  l.flatMap (fun c => if c = '"' then ['"', '"'] else [c])

/-- Modelled from the spec: standard CSV re-parsing of one exported field —
a field that starts with a double quote is unwrapped (outer quotes removed)
and its doubled internal quotes halved; any other field is read verbatim. -/
def unescQuotes : List Char → List Char
  | [] => []
  | [c] => [c]
  | c :: d :: cs =>
      if c = '"' ∧ d = '"' then '"' :: unescQuotes cs
      else c :: unescQuotes (d :: cs)

def parseCsvField (s : String) : String :=
  match s.data with
  | '"' :: rest => String.mk (unescQuotes rest.dropLast)
  | _ => s

end Claimer

namespace Claimer

/-! ### Basic lemmas about the redistribution loop -/

lemma sumBalances_nil : sumBalances [] = 0 := rfl

lemma sumBalances_cons (p : String × Nat) (l : List (String × Nat)) :
    sumBalances (p :: l) = p.2 + sumBalances l := by
  simp [sumBalances]

/-- Sum of floors is at most the floor of the sum (ℕ division). -/
lemma sum_div_le (l : List Nat) (d : Nat) :
    (l.map (fun x => x / d)).sum ≤ l.sum / d := by
  induction l with
  | nil => simp
  | cons x xs ih =>
      simp only [List.map_cons, List.sum_cons]
      calc x / d + (xs.map (fun x => x / d)).sum
          ≤ x / d + xs.sum / d := by omega
        _ ≤ (x + xs.sum) / d := Nat.add_div_le_add_div x xs.sum d

/-- The redistribution loop keeps the addresses, in order. -/
lemma redistribute_map_fst (cap m : Nat) (entries : List (String × Nat)) :
    ∀ acc, (redistribute cap m acc entries).map Prod.fst = entries.map Prod.fst := by
  induction entries with
  | nil => intro acc; rfl
  | cons p rest ih =>
      intro acc
      cases rest with
      | nil => cases p; simp [redistribute]
      | cons q rs => cases p; simp [redistribute, ih]

/-- All entries except the last get the plain floor-scaled balance. -/
lemma redistribute_dropLast (cap m : Nat) (entries : List (String × Nat)) :
    ∀ acc, (redistribute cap m acc entries).dropLast
      = entries.dropLast.map (fun e => (e.1, e.2 * m / SCALE)) := by
  induction entries with
  | nil => intro acc; rfl
  | cons p rest ih =>
      intro acc
      cases rest with
      | nil => cases p; simp [redistribute]
      | cons q rs =>
          cases p with
          | mk a b =>
            have hne : redistribute cap m (acc + b * m / SCALE) (q :: rs) ≠ [] := by
              cases rs <;> simp [redistribute]
            rw [show redistribute cap m acc ((a, b) :: q :: rs)
                  = (a, b * m / SCALE) :: redistribute cap m (acc + b * m / SCALE) (q :: rs)
                from rfl,
               List.dropLast_cons_of_ne_nil hne, ih]
            simp

lemma redistribute_length (cap m acc : Nat) (entries : List (String × Nat)) :
    (redistribute cap m acc entries).length = entries.length := by
  have h := redistribute_map_fst cap m entries acc
  have := congrArg List.length h
  simpa using this

lemma redistribute_ne_nil (cap m acc : Nat) (entries : List (String × Nat))
    (h : entries ≠ []) : redistribute cap m acc entries ≠ [] := by
  intro hc
  apply h
  have := redistribute_length cap m acc entries
  rw [hc] at this
  exact List.length_eq_zero.mp this.symm

lemma aggInsert_ne_nil (l : List (String × Nat)) (a : String) (b : Nat) :
    aggInsert l a b ≠ [] := by
  cases l with
  | nil => simp [aggInsert]
  | cons p rest => cases p; simp only [aggInsert]; split <;> simp

lemma aggregate_ne_nil (rows : List SnapshotRow) (h : rows ≠ []) :
    aggregate rows ≠ [] := by
  suffices H : ∀ (rs : List SnapshotRow) (l : List (String × Nat)),
      rs ≠ [] ∨ l ≠ [] →
      rs.foldl (fun acc r => aggInsert acc r.epix_address r.snapshot_balance) l ≠ [] by
    exact H rows [] (Or.inl h)
  intro rs
  induction rs with
  | nil =>
      intro l hl
      rcases hl with hl | hl
      · exact absurd rfl hl
      · simpa using hl
  | cons r rest ih =>
      intro l _
      exact ih _ (Or.inr (aggInsert_ne_nil l r.epix_address r.snapshot_balance))

/-- Core conservation property of the redistribution loop: if the running
total plus all remaining floor-scaled balances stays under the cap, the loop
pays out exactly `cap - acc` over the remaining entries. -/
lemma redistribute_sum (cap m : Nat) (entries : List (String × Nat)) :
    ∀ acc, entries ≠ [] →
    acc + (entries.map (fun e => e.2 * m / SCALE)).sum ≤ cap →
    sumBalances (redistribute cap m acc entries) = cap - acc := by
  induction entries with
  | nil => intro acc h _; exact absurd rfl h
  | cons p rest ih =>
      intro acc _ hbound
      cases rest with
      | nil =>
          cases p with
          | mk a b =>
            have hstep : redistribute cap m acc [(a, b)]
                = [(a, if acc < cap then cap - acc else b * m / SCALE)] := rfl
            rw [hstep]
            have hsb : sumBalances [(a, if acc < cap then cap - acc else b * m / SCALE)]
                = (if acc < cap then cap - acc else b * m / SCALE) := by
              simp [sumBalances]
            rw [hsb]
            simp only [List.map_cons, List.map_nil, List.sum_cons, List.sum_nil] at hbound
            generalize b * m / SCALE = f at hbound ⊢
            split <;> omega
      | cons q rs =>
          cases p with
          | mk a b =>
            have hstep : redistribute cap m acc ((a, b) :: q :: rs)
                = (a, b * m / SCALE) :: redistribute cap m (acc + b * m / SCALE) (q :: rs) := rfl
            simp only [List.map_cons, List.sum_cons] at hbound
            have hb2 : (acc + b * m / SCALE)
                + ((q :: rs).map (fun e => e.2 * m / SCALE)).sum ≤ cap := by
              simp only [List.map_cons, List.sum_cons]; omega
            have hrec := ih (acc + b * m / SCALE) (by simp) hb2
            have hle : acc + b * m / SCALE ≤ cap :=
              Nat.le_trans (Nat.le_add_right _ _) hb2
            rw [hstep, sumBalances_cons, hrec]
            generalize b * m / SCALE = f at hle ⊢
            omega

lemma sum_map_mul (entries : List (String × Nat)) (m : Nat) :
    (entries.map (fun e => e.2 * m)).sum = sumBalances entries * m := by
  induction entries with
  | nil => simp [sumBalances]
  | cons p rest ihm =>
      simp only [List.map_cons, List.sum_cons, sumBalances_cons, Nat.add_mul, ihm]

lemma sum_map_scale_div (entries : List (String × Nat)) :
    (entries.map (fun e => e.2 * SCALE / SCALE)).sum = sumBalances entries := by
  induction entries with
  | nil => simp [sumBalances]
  | cons p rest ihe =>
      simp only [List.map_cons, List.sum_cons, sumBalances_cons]
      rw [Nat.mul_div_cancel _ (by norm_num [SCALE] : 0 < SCALE), ihe]

/-- The floors of the scaled balances always fit under the cap when the
multiplier is derived from the same entries via `multiplierBigInt`. -/
lemma scaled_sum_le_cap (cap : Nat) (entries : List (String × Nat)) :
    (entries.map (fun e =>
      e.2 * multiplierBigInt cap (sumBalances entries) / SCALE)).sum ≤ cap := by
  by_cases hgt : sumBalances entries > cap
  · have hm : multiplierBigInt cap (sumBalances entries) = cap * SCALE / sumBalances entries := by
      simp [multiplierBigInt, hgt]
    rw [hm]
    have h1 : (entries.map (fun e => e.2 * (cap * SCALE / sumBalances entries) / SCALE)).sum
        ≤ (entries.map (fun e => e.2 * (cap * SCALE / sumBalances entries))).sum / SCALE := by
      have := sum_div_le (entries.map (fun e => e.2 * (cap * SCALE / sumBalances entries))) SCALE
      simpa [List.map_map, Function.comp] using this
    have h3 : sumBalances entries * (cap * SCALE / sumBalances entries) ≤ cap * SCALE := by
      calc sumBalances entries * (cap * SCALE / sumBalances entries)
          = (cap * SCALE / sumBalances entries) * sumBalances entries := Nat.mul_comm _ _
        _ ≤ cap * SCALE := Nat.div_mul_le_self (cap * SCALE) (sumBalances entries)
    have h4 : sumBalances entries * (cap * SCALE / sumBalances entries) / SCALE ≤ cap := by
      have := Nat.div_le_div_right (c := SCALE) h3
      rwa [Nat.mul_div_cancel _ (by norm_num [SCALE] : 0 < SCALE)] at this
    calc (entries.map (fun e => e.2 * (cap * SCALE / sumBalances entries) / SCALE)).sum
        ≤ (entries.map (fun e => e.2 * (cap * SCALE / sumBalances entries))).sum / SCALE := h1
      _ = sumBalances entries * (cap * SCALE / sumBalances entries) / SCALE := by
          rw [sum_map_mul]
      _ ≤ cap := h4
  · have hm : multiplierBigInt cap (sumBalances entries) = SCALE := by
      simp [multiplierBigInt, hgt]
    rw [hm, sum_map_scale_div]
    omega

/-- Conservation of the cap by `/download-csv`, for any non-empty row set. -/
lemma downloadCsv_conservationAux (rows : List SnapshotRow) (hne : rows ≠ []) :
    sumBalances (downloadCsvBalances rows) = TARGET_BALANCE_SATS ∧
    (downloadCsvBalances rows).getLast?.map Prod.snd
      = some (TARGET_BALANCE_SATS
          - sumBalances ((downloadCsvBalances rows).dropLast)) := by
  have hagg : aggregate rows ≠ [] := aggregate_ne_nil rows hne
  have hsum : sumBalances (downloadCsvBalances rows) = TARGET_BALANCE_SATS := by
    unfold downloadCsvBalances
    have := redistribute_sum TARGET_BALANCE_SATS
      (multiplierBigInt TARGET_BALANCE_SATS (sumBalances (aggregate rows)))
      (aggregate rows) 0 hagg
      (by simpa using scaled_sum_le_cap TARGET_BALANCE_SATS (aggregate rows))
    simpa using this
  refine ⟨hsum, ?_⟩
  have hrne : downloadCsvBalances rows ≠ [] := by
    unfold downloadCsvBalances
    exact redistribute_ne_nil _ _ _ _ hagg
  obtain ⟨l, x, hlx⟩ := (List.eq_nil_or_concat (downloadCsvBalances rows)).resolve_left hrne
  rw [List.concat_eq_append] at hlx
  have hdrop : (downloadCsvBalances rows).dropLast = l := by
    rw [hlx]; exact List.dropLast_concat
  have hlast : (downloadCsvBalances rows).getLast? = some x := by
    rw [hlx]; exact List.getLast?_concat l
  have hsplit : sumBalances (l ++ [x]) = sumBalances l + x.2 := by
    simp [sumBalances]
  rw [hlx, hsplit] at hsum
  rw [hlast, hdrop]
  have hx : x.2 = TARGET_BALANCE_SATS - sumBalances l := by omega
  show some x.2 = some (TARGET_BALANCE_SATS - sumBalances l)
  exact congrArg some hx

/-- C1 — For every non-empty stored claim set whose total original balance is
positive, the redistribution computed by `/download-csv` satisfies exact
conservation: the final balances over the distinct destination (epix)
addresses sum to `TARGET_BALANCE_SATS` (`TOTAL_SUPPLY/2` scaled by `10^8`)
exactly, and the last destination in processing order absorbs the remainder
`TARGET_BALANCE_SATS` minus the sum of all other final balances. -/
theorem downloadCsv_conservation (rows : List SnapshotRow)
    (hne : rows ≠ []) (hpos : 0 < sumBalances (aggregate rows)) :
    sumBalances (downloadCsvBalances rows) = TARGET_BALANCE_SATS ∧
    (downloadCsvBalances rows).getLast?.map Prod.snd
      = some (TARGET_BALANCE_SATS
          - sumBalances ((downloadCsvBalances rows).dropLast)) :=
  downloadCsv_conservationAux rows hne

/-- Witness for `downloadCsv_conservation` on the concrete two-row set
`[(a, 3), (b, 7)]`. -/
theorem downloadCsv_conservation_witness :
    (([⟨"a", 3⟩, ⟨"b", 7⟩] : List SnapshotRow) ≠ [] ∧
      0 < sumBalances (aggregate [⟨"a", 3⟩, ⟨"b", 7⟩])) ∧
    (sumBalances (downloadCsvBalances [⟨"a", 3⟩, ⟨"b", 7⟩]) = TARGET_BALANCE_SATS ∧
    (downloadCsvBalances [⟨"a", 3⟩, ⟨"b", 7⟩]).getLast?.map Prod.snd
      = some (TARGET_BALANCE_SATS
          - sumBalances ((downloadCsvBalances [⟨"a", 3⟩, ⟨"b", 7⟩]).dropLast))) :=
  ⟨⟨by simp, by decide⟩,
    downloadCsv_conservation [⟨"a", 3⟩, ⟨"b", 7⟩] (by simp) (by decide)⟩

/-! ### Multiplier facts (C2, C3, C10) -/

lemma multiplier_lt_scale (cap total : Nat) (hgt : total > cap) :
    multiplierBigInt cap total < SCALE := by
  unfold multiplierBigInt
  rw [if_pos hgt]
  have hS : (0 : Nat) < SCALE := by norm_num [SCALE]
  exact Nat.div_lt_of_lt_mul (mul_lt_mul_of_pos_right hgt hS)

lemma multiplier_le_scale (cap total : Nat) : multiplierBigInt cap total ≤ SCALE := by
  by_cases hgt : total > cap
  · exact Nat.le_of_lt (multiplier_lt_scale cap total hgt)
  · unfold multiplierBigInt
    rw [if_neg hgt]

lemma scaled_le_self (b m : Nat) (hm : m ≤ SCALE) : b * m / SCALE ≤ b := by
  calc b * m / SCALE ≤ b * SCALE / SCALE :=
        Nat.div_le_div_right (Nat.mul_le_mul_left b hm)
    _ = b := Nat.mul_div_cancel _ (by norm_num [SCALE])

/-- C2 counterexample — a single stored claim with balance 0 has
`totalOriginalUnits = 0 ≤ TARGET_BALANCE_SATS`, yet its final balance is the
full cap `TARGET_BALANCE_SATS`, not its original balance 0: the last entry of
the redistribution absorbs the remainder even on the no-scaling path. -/
theorem multiplier_one_counterexample :
    sumBalances (aggregate [(⟨"a", 0⟩ : SnapshotRow)]) ≤ TARGET_BALANCE_SATS ∧
    downloadCsvBalances [(⟨"a", 0⟩ : SnapshotRow)] = [("a", TARGET_BALANCE_SATS)] ∧
    TARGET_BALANCE_SATS ≠ 0 := by
  refine ⟨by decide, ?_, by decide⟩
  decide

/-- C2 amended — when `totalOriginalUnits ≤ TARGET_BALANCE_SATS` the
multiplier equals `SCALE` (fixed-point 1, no scaling) and every destination
except the last keeps exactly its original balance; the last destination is
still overridden with `TARGET_BALANCE_SATS` minus the other final balances
(so an all-zero claim set yields 0 for every non-last destination and the
full cap for the last one), and no division fault occurs anywhere. -/
theorem multiplier_one_correct (rows : List SnapshotRow)
    (h : sumBalances (aggregate rows) ≤ TARGET_BALANCE_SATS) :
    multiplierBigInt TARGET_BALANCE_SATS (sumBalances (aggregate rows)) = SCALE ∧
    (downloadCsvBalances rows).dropLast = (aggregate rows).dropLast ∧
    (rows ≠ [] → (downloadCsvBalances rows).getLast?.map Prod.snd
      = some (TARGET_BALANCE_SATS
          - sumBalances ((downloadCsvBalances rows).dropLast))) := by
  have hm : multiplierBigInt TARGET_BALANCE_SATS (sumBalances (aggregate rows)) = SCALE := by
    unfold multiplierBigInt
    rw [if_neg (Nat.not_lt.mpr h)]
  refine ⟨hm, ?_, fun hne => (downloadCsv_conservationAux rows hne).2⟩
  have hdl : downloadCsvBalances rows
      = redistribute TARGET_BALANCE_SATS
          (multiplierBigInt TARGET_BALANCE_SATS (sumBalances (aggregate rows)))
          0 (aggregate rows) := rfl
  rw [hdl, hm, redistribute_dropLast]
  have he : ∀ e : String × Nat, (e.1, e.2 * SCALE / SCALE) = e := fun e => by
    rw [Nat.mul_div_cancel _ (by norm_num [SCALE] : 0 < SCALE)]
  simp only [he, List.map_id']

/-- Witness for `multiplier_one_correct` on the all-zero two-row set. -/
theorem multiplier_one_correct_witness :
    sumBalances (aggregate [(⟨"a", 0⟩ : SnapshotRow), ⟨"b", 0⟩]) ≤ TARGET_BALANCE_SATS ∧
    (multiplierBigInt TARGET_BALANCE_SATS
        (sumBalances (aggregate [(⟨"a", 0⟩ : SnapshotRow), ⟨"b", 0⟩])) = SCALE ∧
    (downloadCsvBalances [(⟨"a", 0⟩ : SnapshotRow), ⟨"b", 0⟩]).dropLast
        = (aggregate [(⟨"a", 0⟩ : SnapshotRow), ⟨"b", 0⟩]).dropLast ∧
    ([(⟨"a", 0⟩ : SnapshotRow), ⟨"b", 0⟩] ≠ [] →
      (downloadCsvBalances [(⟨"a", 0⟩ : SnapshotRow), ⟨"b", 0⟩]).getLast?.map Prod.snd
        = some (TARGET_BALANCE_SATS
            - sumBalances ((downloadCsvBalances
                [(⟨"a", 0⟩ : SnapshotRow), ⟨"b", 0⟩]).dropLast)))) :=
  ⟨by decide, multiplier_one_correct [⟨"a", 0⟩, ⟨"b", 0⟩] (by decide)⟩

/-- C3 — When `totalOriginalUnits` exceeds the cap, the multiplier equals
`floor(cap * SCALE / total)` computed via integer division only, and every
non-last destination receives `floor(originalBalance * multiplier / SCALE)`;
on the concrete set `{A: 300000000}`, `{B: 700000000}` with cap `500000000`
this yields multiplier `50000000`, `A = 150000000` and last entry
`B = 350000000`, summing to exactly `500000000`. -/
theorem multiplier_floor_correct (cap : Nat) (entries : List (String × Nat))
    (h : sumBalances entries > cap) :
    multiplierBigInt cap (sumBalances entries) = cap * SCALE / sumBalances entries ∧
    (redistribute cap (multiplierBigInt cap (sumBalances entries)) 0 entries).dropLast
      = entries.dropLast.map
          (fun e => (e.1, e.2 * (cap * SCALE / sumBalances entries) / SCALE)) ∧
    multiplierBigInt 500000000
        (sumBalances [("A", 300000000), ("B", 700000000)]) = 50000000 ∧
    redistribute 500000000 50000000 0 [("A", 300000000), ("B", 700000000)]
      = [("A", 150000000), ("B", 350000000)] ∧
    sumBalances [("A", 150000000), ("B", 350000000)] = 500000000 := by
  have hm : multiplierBigInt cap (sumBalances entries)
      = cap * SCALE / sumBalances entries := by
    unfold multiplierBigInt
    rw [if_pos h]
  refine ⟨hm, ?_, by decide, by decide, by decide⟩
  rw [hm, redistribute_dropLast]

/-- Witness for `multiplier_floor_correct` at the claim's concrete inputs. -/
theorem multiplier_floor_correct_witness :
    sumBalances [("A", 300000000), ("B", 700000000)] > 500000000 ∧
    (multiplierBigInt 500000000
        (sumBalances [("A", 300000000), ("B", 700000000)])
      = 500000000 * SCALE / sumBalances [("A", 300000000), ("B", 700000000)] ∧
    (redistribute 500000000
        (multiplierBigInt 500000000 (sumBalances [("A", 300000000), ("B", 700000000)]))
        0 [("A", 300000000), ("B", 700000000)]).dropLast
      = [(("A" : String), (300000000 : Nat))].map
          (fun e => (e.1, e.2 * (500000000 * SCALE
              / sumBalances [("A", 300000000), ("B", 700000000)]) / SCALE)) ∧
    multiplierBigInt 500000000
        (sumBalances [("A", 300000000), ("B", 700000000)]) = 50000000 ∧
    redistribute 500000000 50000000 0 [("A", 300000000), ("B", 700000000)]
      = [("A", 150000000), ("B", 350000000)] ∧
    sumBalances [("A", 150000000), ("B", 350000000)] = 500000000) :=
  ⟨by decide, multiplier_floor_correct 500000000 [("A", 300000000), ("B", 700000000)]
      (by decide)⟩

/-- C4 counterexample — with stored rows `[(b,10), (a,10)]` the remainder is
absorbed by `a`, the last destination in first-appearance (insertion) order,
even though `a` precedes `b` in ascending lexicographic address order: the
lexically last destination `b` keeps its unscaled balance 10, while `a`
receives the remainder `TARGET_BALANCE_SATS - 10` instead of its own scaled
balance 10. -/
theorem remainder_order_counterexample :
    downloadCsvBalances [(⟨"b", 10⟩ : SnapshotRow), ⟨"a", 10⟩]
      = [("b", 10), ("a", TARGET_BALANCE_SATS - 10)] ∧
    "a".data < "b".data ∧
    TARGET_BALANCE_SATS - 10
      ≠ 10 * multiplierBigInt TARGET_BALANCE_SATS
          (sumBalances (aggregate [(⟨"b", 10⟩ : SnapshotRow), ⟨"a", 10⟩])) / SCALE := by
  refine ⟨?_, by decide, by decide⟩
  decide

/-- C4 amended — the destination that absorbs the remainder is the last
entry in first-appearance order of the stored rows (the `id`-ascending
iteration order of the aggregation map), not ascending lexicographic address
order; the output addresses are exactly the aggregated addresses in that
order, the last of them absorbs `TARGET_BALANCE_SATS` minus the other final
balances, and the computation is a pure function of the ordered row list, so
two runs over the identical stored claim set produce identical results. -/
theorem remainder_insertion_order (rows : List SnapshotRow) (hne : rows ≠ []) :
    (downloadCsvBalances rows).map Prod.fst = (aggregate rows).map Prod.fst ∧
    (downloadCsvBalances rows).getLast?.map Prod.fst
      = (aggregate rows).getLast?.map Prod.fst ∧
    (downloadCsvBalances rows).getLast?.map Prod.snd
      = some (TARGET_BALANCE_SATS
          - sumBalances ((downloadCsvBalances rows).dropLast)) ∧
    downloadCsvBalances rows = downloadCsvBalances rows := by
  have hmap : (downloadCsvBalances rows).map Prod.fst
      = (aggregate rows).map Prod.fst := by
    unfold downloadCsvBalances
    exact redistribute_map_fst _ _ _ _
  refine ⟨hmap, ?_, (downloadCsv_conservationAux rows hne).2, rfl⟩
  have h1 := List.getLast?_map (Prod.fst (α := String) (β := Nat)) (downloadCsvBalances rows)
  have h2 := List.getLast?_map (Prod.fst (α := String) (β := Nat)) (aggregate rows)
  rw [← h1, ← h2, hmap]

/-- Witness for `remainder_insertion_order` on the rows `[(b,10), (a,10)]`. -/
theorem remainder_insertion_order_witness :
    ([(⟨"b", 10⟩ : SnapshotRow), ⟨"a", 10⟩] ≠ []) ∧
    ((downloadCsvBalances [(⟨"b", 10⟩ : SnapshotRow), ⟨"a", 10⟩]).map Prod.fst
      = (aggregate [(⟨"b", 10⟩ : SnapshotRow), ⟨"a", 10⟩]).map Prod.fst ∧
    (downloadCsvBalances [(⟨"b", 10⟩ : SnapshotRow), ⟨"a", 10⟩]).getLast?.map Prod.fst
      = (aggregate [(⟨"b", 10⟩ : SnapshotRow), ⟨"a", 10⟩]).getLast?.map Prod.fst ∧
    (downloadCsvBalances [(⟨"b", 10⟩ : SnapshotRow), ⟨"a", 10⟩]).getLast?.map Prod.snd
      = some (TARGET_BALANCE_SATS
          - sumBalances ((downloadCsvBalances
              [(⟨"b", 10⟩ : SnapshotRow), ⟨"a", 10⟩]).dropLast)) ∧
    downloadCsvBalances [(⟨"b", 10⟩ : SnapshotRow), ⟨"a", 10⟩]
      = downloadCsvBalances [(⟨"b", 10⟩ : SnapshotRow), ⟨"a", 10⟩]) :=
  ⟨by simp, remainder_insertion_order [⟨"b", 10⟩, ⟨"a", 10⟩] (by simp)⟩


/-- C10 — the multiplier never exceeds the scale: it equals `SCALE` when the
total is at most the cap and is strictly smaller otherwise; consequently every
destination other than the last (the remainder absorber) receives a final
balance that never exceeds its original balance. -/
theorem nonlast_final_le_original (cap : Nat) (entries : List (String × Nat)) :
    multiplierBigInt cap (sumBalances entries) ≤ SCALE ∧
    (sumBalances entries ≤ cap →
      multiplierBigInt cap (sumBalances entries) = SCALE) ∧
    (sumBalances entries > cap →
      multiplierBigInt cap (sumBalances entries) < SCALE) ∧
    (∀ i (h1 : i < ((redistribute cap (multiplierBigInt cap (sumBalances entries))
            0 entries).dropLast).length)
        (h2 : i < entries.dropLast.length),
      ((redistribute cap (multiplierBigInt cap (sumBalances entries))
          0 entries).dropLast)[i].2 ≤ (entries.dropLast)[i].2) := by
  refine ⟨multiplier_le_scale cap (sumBalances entries),
    fun h => by unfold multiplierBigInt; rw [if_neg (Nat.not_lt.mpr h)],
    fun h => multiplier_lt_scale cap (sumBalances entries) h, ?_⟩
  intro i h1 h2
  have hd := redistribute_dropLast cap
    (multiplierBigInt cap (sumBalances entries)) entries 0
  simp only [hd, List.getElem_map]
  exact scaled_le_self _ _ (multiplier_le_scale cap (sumBalances entries))

/-! ### `/verify-snapshot` theorems (C5, C6, C7, C9) -/

lemma storeInsert_eq (store : List Claim) (c : Claim) :
    storeInsert store c = some (store ++ [c]) := rfl

/-- C5 — the `/verify-snapshot` checks run in the fixed order
missing-signature, snapshot-height, claim-deadline, duplicate-address,
balance, signature, and the reported outcome is that of the first failing
check (`specFirstFailingOutcome`, written from the spec wording); a request
without a signature is rejected with the signature-required reason before
and independent of any chain call; the balance check rejects exactly when
the indexed balance differs from the claimed balance (strict equality, no
tolerance). -/
theorem verify_first_failing (req : VerifyRequest) (env : ChainEnv)
    (store : List Claim) :
    (verifySnapshot req env store).response = specFirstFailingOutcome req env store ∧
    (signatureMissing req = true →
      ∀ (env2 : ChainEnv) (store2 : List Claim),
        (verifySnapshot req env2 store2).response = ⟨400, "Signature is required"⟩) ∧
    (∀ b, signatureMissing req = false →
      env.tipCall = .ok (some snapshotHeight) →
      env.nowMs ≤ claimDeadlineMs →
      store.any (fun c => c.x42_address = req.x42_address) = false →
      env.balanceCall = .ok b →
      ((b ≠ req.snapshot_balance →
        (verifySnapshot req env store).response = ⟨400, "Balance verification failed"⟩) ∧
      (b = req.snapshot_balance →
        (verifySnapshot req env store).response ≠ ⟨400, "Balance verification failed"⟩))) := by
  refine ⟨?_, ?_, ?_⟩
  · unfold verifySnapshot specFirstFailingOutcome
    split
    · rfl
    · cases env.tipCall with
      | throw => rfl
      | ok d =>
          simp only
          split
          · rfl
          · split
            · rfl
            · split
              · rfl
              · split
                · rfl
                · cases env.balanceCall with
                  | throw => rfl
                  | ok b =>
                      simp only
                      split
                      · rfl
                      · cases env.verifyCall with
                        | throw => rfl
                        | ok v =>
                            simp only
                            split
                            · rfl
                            · rfl
  · intro h env2 store2
    simp [verifySnapshot, h]
  · intro b hsig htip hnow hdup hbal
    constructor
    · intro hne
      simp [verifySnapshot, hsig, htip, hnow, hdup, hbal, hne, snapshotHeight,
        Nat.not_lt.mpr hnow]
    · intro heq
      cases hver : env.verifyCall with
      | throw =>
          simp [verifySnapshot, hsig, htip, hnow, hdup, hbal, heq, hver,
            snapshotHeight, Nat.not_lt.mpr hnow]
      | ok v =>
          by_cases hv : v = "True"
          · simp [verifySnapshot, hsig, htip, hnow, hdup, hbal, heq, hver, hv,
              snapshotHeight, Nat.not_lt.mpr hnow, storeInsert_eq]
          · simp [verifySnapshot, hsig, htip, hnow, hdup, hbal, heq, hver, hv,
              snapshotHeight, Nat.not_lt.mpr hnow]

/-- Witness for `verify_first_failing` on a fully passing concrete request. -/
theorem verify_first_failing_witness :
    (verifySnapshot ⟨"X1", "E1", 5, some "s"⟩
        ⟨.ok (some 3000000), 0, .ok 5, .ok "True", true, .ok ()⟩ []).response
      = specFirstFailingOutcome ⟨"X1", "E1", 5, some "s"⟩
          ⟨.ok (some 3000000), 0, .ok 5, .ok "True", true, .ok ()⟩ [] ∧
    (signatureMissing ⟨"X1", "E1", 5, some "s"⟩ = true →
      ∀ (env2 : ChainEnv) (store2 : List Claim),
        (verifySnapshot ⟨"X1", "E1", 5, some "s"⟩ env2 store2).response
          = ⟨400, "Signature is required"⟩) ∧
    (∀ b, signatureMissing ⟨"X1", "E1", 5, some "s"⟩ = false →
      (ChainEnv.mk (.ok (some 3000000)) 0 (.ok 5) (.ok "True") true (.ok ())).tipCall
        = .ok (some snapshotHeight) →
      (ChainEnv.mk (.ok (some 3000000)) 0 (.ok 5) (.ok "True") true (.ok ())).nowMs
        ≤ claimDeadlineMs →
      List.any ([] : List Claim) (fun c => c.x42_address = VerifyRequest.x42_address ⟨"X1", "E1", 5, some "s"⟩)
        = false →
      (ChainEnv.mk (.ok (some 3000000)) 0 (.ok 5) (.ok "True") true (.ok ())).balanceCall
        = .ok b →
      ((b ≠ VerifyRequest.snapshot_balance ⟨"X1", "E1", 5, some "s"⟩ →
        (verifySnapshot ⟨"X1", "E1", 5, some "s"⟩
            ⟨.ok (some 3000000), 0, .ok 5, .ok "True", true, .ok ()⟩ []).response
          = ⟨400, "Balance verification failed"⟩) ∧
      (b = VerifyRequest.snapshot_balance ⟨"X1", "E1", 5, some "s"⟩ →
        (verifySnapshot ⟨"X1", "E1", 5, some "s"⟩
            ⟨.ok (some 3000000), 0, .ok 5, .ok "True", true, .ok ()⟩ []).response
          ≠ ⟨400, "Balance verification failed"⟩))) :=
  verify_first_failing ⟨"X1", "E1", 5, some "s"⟩
    ⟨.ok (some 3000000), 0, .ok 5, .ok "True", true, .ok ()⟩ []

/-- C6 counterexample — a resolved but malformed `addressindexertip`
response (2xx body without a usable `tipHeight`) is answered with HTTP 400
("Unable to retrieve block height"), not the claimed HTTP 500 ERROR. -/
theorem chain_error_counterexample :
    (verifySnapshot ⟨"X1", "E1", 5, some "s"⟩
        ⟨.ok none, 0, .ok 5, .ok "True", false, .throw⟩ []).response
      = ⟨400, "Unable to retrieve block height"⟩ ∧
    (400 : Nat) ≠ 500 := by
  exact ⟨rfl, by decide⟩

/-- C6 amended — chain calls that reject (timeout, network fault, non-2xx)
are reported as HTTP 500 at every stage, and validation failures as HTTP
400; however a tip-height response that resolves with a malformed body
(missing or zero `tipHeight`) is answered with HTTP 400
("Unable to retrieve block height"), not 500. -/
theorem chain_fault_mapping (req : VerifyRequest) (env : ChainEnv)
    (store : List Claim) (hsig : signatureMissing req = false) :
    (env.tipCall = .throw →
      (verifySnapshot req env store).response = ⟨500, "Internal server error"⟩) ∧
    (∀ d, env.tipCall = .ok d → (d = none ∨ d = some 0) →
      (verifySnapshot req env store).response
        = ⟨400, "Unable to retrieve block height"⟩) ∧
    (env.tipCall = .ok (some snapshotHeight) → env.nowMs ≤ claimDeadlineMs →
      store.any (fun c => c.x42_address = req.x42_address) = false →
      env.balanceCall = .throw →
      (verifySnapshot req env store).response = ⟨500, "Internal server error"⟩) ∧
    (∀ b, env.tipCall = .ok (some snapshotHeight) → env.nowMs ≤ claimDeadlineMs →
      store.any (fun c => c.x42_address = req.x42_address) = false →
      env.balanceCall = .ok b → b = req.snapshot_balance →
      env.verifyCall = .throw →
      (verifySnapshot req env store).response = ⟨500, "Internal server error"⟩) := by
  refine ⟨?_, ?_, ?_, ?_⟩
  · intro h
    simp [verifySnapshot, hsig, h]
  · intro d htip hbad
    simp [verifySnapshot, hsig, htip, hbad]
  · intro htip hnow hdup hbal
    simp [verifySnapshot, hsig, htip, hnow, hdup, hbal, snapshotHeight,
      Nat.not_lt.mpr hnow]
  · intro b htip hnow hdup hbal heq hver
    simp [verifySnapshot, hsig, htip, hnow, hdup, hbal, heq, hver, snapshotHeight,
      Nat.not_lt.mpr hnow]

/-- Witness for `chain_fault_mapping` at a concrete throwing balance call. -/
theorem chain_fault_mapping_witness :
    signatureMissing ⟨"X1", "E1", 5, some "s"⟩ = false ∧
    ((ChainEnv.mk (.ok (some 3000000)) 0 .throw .throw false .throw).tipCall = .throw →
      (verifySnapshot ⟨"X1", "E1", 5, some "s"⟩
          ⟨.ok (some 3000000), 0, .throw, .throw, false, .throw⟩ []).response
        = ⟨500, "Internal server error"⟩) ∧
    (∀ d, (ChainEnv.mk (.ok (some 3000000)) 0 .throw .throw false .throw).tipCall
        = .ok d → (d = none ∨ d = some 0) →
      (verifySnapshot ⟨"X1", "E1", 5, some "s"⟩
          ⟨.ok (some 3000000), 0, .throw, .throw, false, .throw⟩ []).response
        = ⟨400, "Unable to retrieve block height"⟩) ∧
    ((ChainEnv.mk (.ok (some 3000000)) 0 .throw .throw false .throw).tipCall
        = .ok (some snapshotHeight) →
      (ChainEnv.mk (.ok (some 3000000)) 0 .throw .throw false .throw).nowMs
        ≤ claimDeadlineMs →
      List.any ([] : List Claim) (fun c => c.x42_address = VerifyRequest.x42_address ⟨"X1", "E1", 5, some "s"⟩)
        = false →
      (ChainEnv.mk (.ok (some 3000000)) 0 .throw .throw false .throw).balanceCall = .throw →
      (verifySnapshot ⟨"X1", "E1", 5, some "s"⟩
          ⟨.ok (some 3000000), 0, .throw, .throw, false, .throw⟩ []).response
        = ⟨500, "Internal server error"⟩) ∧
    (∀ b, (ChainEnv.mk (.ok (some 3000000)) 0 .throw .throw false .throw).tipCall
        = .ok (some snapshotHeight) →
      (ChainEnv.mk (.ok (some 3000000)) 0 .throw .throw false .throw).nowMs
        ≤ claimDeadlineMs →
      List.any ([] : List Claim) (fun c => c.x42_address = VerifyRequest.x42_address ⟨"X1", "E1", 5, some "s"⟩)
        = false →
      (ChainEnv.mk (.ok (some 3000000)) 0 .throw .throw false .throw).balanceCall = .ok b →
      b = VerifyRequest.snapshot_balance ⟨"X1", "E1", 5, some "s"⟩ →
      (ChainEnv.mk (.ok (some 3000000)) 0 .throw .throw false .throw).verifyCall = .throw →
      (verifySnapshot ⟨"X1", "E1", 5, some "s"⟩
          ⟨.ok (some 3000000), 0, .throw, .throw, false, .throw⟩ []).response
        = ⟨500, "Internal server error"⟩) :=
  ⟨by decide, chain_fault_mapping ⟨"X1", "E1", 5, some "s"⟩
    ⟨.ok (some 3000000), 0, .throw, .throw, false, .throw⟩ [] (by decide)⟩

/-- C7 counterexample — the storage layer declares no unique constraint on
`x42_address`, so a second insertion for the same source address succeeds
and leaves two stored claims for that address: store-level uniqueness is
not enforced, contrary to the claim. -/
theorem store_unique_counterexample :
    storeInsert [⟨"s1", "X", "E1", 5⟩] ⟨"s2", "X", "E2", 6⟩
      = some [⟨"s1", "X", "E1", 5⟩, ⟨"s2", "X", "E2", 6⟩] ∧
    List.countP (fun c => c.x42_address == "X")
      [(⟨"s1", "X", "E1", 5⟩ : Claim), ⟨"s2", "X", "E2", 6⟩] = 2 := by
  exact ⟨rfl, by decide⟩

/-- C7 amended — at-most-one-claim-per-source is enforced only by the
application-level pre-check: a submission whose source address already has a
stored claim is rejected as a duplicate before insertion, but the Sequelize
model declares no unique column, so the storage-layer insert never fails —
a second insertion racing past the pre-check would be stored. -/
theorem duplicate_precheck_only (req : VerifyRequest) (env : ChainEnv)
    (store : List Claim) (hsig : signatureMissing req = false)
    (htip : env.tipCall = .ok (some snapshotHeight))
    (hnow : env.nowMs ≤ claimDeadlineMs) :
    (store.any (fun c => c.x42_address = req.x42_address) = true →
      verifySnapshot req env store
        = ⟨⟨400, "Duplicate address. Snapshot was already verified."⟩, store, none⟩) ∧
    snapshotModelColumns.all (fun col => !col.2.unique) = true ∧
    (∀ (store2 : List Claim) (c : Claim), storeInsert store2 c = some (store2 ++ [c])) := by
  refine ⟨?_, by decide, fun store2 c => storeInsert_eq store2 c⟩
  intro hdup
  simp [verifySnapshot, hsig, htip, hdup, snapshotHeight, Nat.not_lt.mpr hnow]

/-- Witness for `duplicate_precheck_only` on a store already holding the
submitted source address. -/
theorem duplicate_precheck_only_witness :
    (signatureMissing ⟨"X", "E2", 6, some "s2"⟩ = false ∧
      (ChainEnv.mk (.ok (some 3000000)) 0 (.ok 6) (.ok "True") false .throw).tipCall
        = .ok (some snapshotHeight) ∧
      (ChainEnv.mk (.ok (some 3000000)) 0 (.ok 6) (.ok "True") false .throw).nowMs
        ≤ claimDeadlineMs) ∧
    ((List.any ([⟨"s1", "X", "E1", 5⟩] : List Claim)
        (fun c => c.x42_address = VerifyRequest.x42_address ⟨"X", "E2", 6, some "s2"⟩) = true →
      verifySnapshot ⟨"X", "E2", 6, some "s2"⟩
          ⟨.ok (some 3000000), 0, .ok 6, .ok "True", false, .throw⟩ [⟨"s1", "X", "E1", 5⟩]
        = ⟨⟨400, "Duplicate address. Snapshot was already verified."⟩,
            [⟨"s1", "X", "E1", 5⟩], none⟩) ∧
    snapshotModelColumns.all (fun col => !col.2.unique) = true ∧
    (∀ (store2 : List Claim) (c : Claim), storeInsert store2 c = some (store2 ++ [c]))) :=
  ⟨⟨by decide, by decide, by decide⟩,
    duplicate_precheck_only ⟨"X", "E2", 6, some "s2"⟩
      ⟨.ok (some 3000000), 0, .ok 6, .ok "True", false, .throw⟩
      [⟨"s1", "X", "E1", 5⟩] (by decide) (by decide) (by decide)⟩

/-! ### CSV escaping theorems (C8) -/

lemma escQuotes_eq_doubleQuotesSpec (l : List Char) :
    escQuotes l = doubleQuotesSpec l := by
  induction l with
  | nil => rfl
  | cons c cs ih =>
      by_cases hc : c = '"'
      · subst hc
        simp [escQuotes, doubleQuotesSpec, List.flatMap_cons, ih]
      · simp [escQuotes, doubleQuotesSpec, List.flatMap_cons, hc, ih]

lemma unescQuotes_quote_quote (X : List Char) :
    unescQuotes ('"' :: '"' :: X) = '"' :: unescQuotes X := by
  simp [unescQuotes]

lemma unesc_esc (l : List Char) : unescQuotes (escQuotes l) = l := by
  induction l with
  | nil => rfl
  | cons c cs ih =>
      by_cases hc : c = '"'
      · subst hc
        rw [show escQuotes ('"' :: cs) = '"' :: '"' :: escQuotes cs from by
              simp [escQuotes]]
        rw [unescQuotes_quote_quote, ih]
      · rw [show escQuotes (c :: cs) = c :: escQuotes cs from by
              simp [escQuotes, hc]]
        cases hE : escQuotes cs with
        | nil =>
            have hcs : cs = [] := by
              rw [hE] at ih
              simpa [unescQuotes] using ih.symm
            subst hcs
            simp [unescQuotes]
        | cons d rest =>
            rw [show unescQuotes (c :: d :: rest) = c :: unescQuotes (d :: rest) from by
                  simp [unescQuotes, hc]]
            rw [← hE, ih]

/-- C8 — every field value containing a comma, double quote, or newline
character (LF or CR) is wrapped in double quotes with internal double quotes
doubled; any other field is emitted unchanged; consequently a raw payload
string containing a comma and a quote round-trips through the export
escaping and standard CSV re-parsing to the original string unchanged. -/
theorem csv_escaping (s : String) :
    (needsQuoting s = true →
      (escapeCsvField s).data = '"' :: (doubleQuotesSpec s.data ++ ['"'])) ∧
    (needsQuoting s = false → escapeCsvField s = s) ∧
    (',' ∈ s.data → '"' ∈ s.data → parseCsvField (escapeCsvField s) = s) := by
  have hesc : needsQuoting s = true →
      escapeCsvField s = "\"" ++ String.mk (escQuotes s.data) ++ "\"" := by
    intro h
    unfold escapeCsvField
    rw [if_pos h]
  refine ⟨?_, ?_, ?_⟩
  · intro h
    rw [hesc h]
    simp [String.data_append, escQuotes_eq_doubleQuotesSpec]
  · intro h
    unfold escapeCsvField
    rw [if_neg]
    simp [h]
  · intro hc _
    have hneed : needsQuoting s = true := by
      unfold needsQuoting
      rw [List.any_eq_true]
      exact ⟨',', hc, by decide⟩
    rw [hesc hneed]
    have hdata : ("\"" ++ String.mk (escQuotes s.data) ++ "\"").data
        = '"' :: (escQuotes s.data ++ ['"']) := by
      simp [String.data_append]
    unfold parseCsvField
    rw [hdata]
    show String.mk (unescQuotes (escQuotes s.data ++ ['"']).dropLast) = s
    rw [List.dropLast_concat, unesc_esc]

/-- Witness for `csv_escaping` at the string `a,"b`, which contains both a
comma and a quote. -/
theorem csv_escaping_witness :
    (',' ∈ "a,\"b".data ∧ '"' ∈ "a,\"b".data) ∧
    parseCsvField (escapeCsvField "a,\"b") = "a,\"b" :=
  ⟨⟨by decide, by decide⟩, (csv_escaping "a,\"b").2.2 (by decide) (by decide)⟩

/-- Any message the Discord dispatch posts carries exactly the address and
balance it was called with. -/
lemma notify_payload (a : String) (b : Nat) (w : Bool) (p : CallResult Unit) :
    ∀ d, (sendSnapshotVerificationNotification a b w p).2 = some d →
      d = ⟨a, b⟩ := by
  intro d h
  cases w with
  | false => simp [sendSnapshotVerificationNotification] at h
  | true =>
      cases p <;> simp [sendSnapshotVerificationNotification] at h <;> exact h.symm

/-- C9 counterexample — the dispatched notification carries the SOURCE (x42)
address, not the destination (epix) address: for the successful submission
with source `X1` and destination `E1` the endpoint answers 200 and the
posted webhook message's address field is `X1`, which differs from `E1`. -/
theorem notify_payload_counterexample :
    (verifySnapshot ⟨"X1", "E1", 5, some "s"⟩
        ⟨.ok (some 3000000), 0, .ok 5, .ok "True", true, .ok ()⟩ []).response.status
      = 200 ∧
    (verifySnapshot ⟨"X1", "E1", 5, some "s"⟩
        ⟨.ok (some 3000000), 0, .ok 5, .ok "True", true, .ok ()⟩ []).notify
      = some (true, some ⟨"X1", 5⟩) ∧
    ("X1" : String) ≠ "E1" := by
  refine ⟨rfl, rfl, by decide⟩

/-- C9 amended — after a successful commit a notification dispatch carrying
the source (x42) address and the claimed balance is issued, and it is
decoupled from the response: the HTTP response and the committed store are
identical for every webhook configuration and webhook outcome (so the
endpoint answers 200 on the success path regardless of whether the
notification succeeds), the dispatch's boolean result is recorded but
ignored, any message it posts carries exactly the request's x42 address and
claimed balance, and the new claim is committed either way. -/
theorem notify_decoupled (req : VerifyRequest)
    (tip : CallResult (Option Nat)) (now : Nat) (bal : CallResult Nat)
    (ver : CallResult String) (w1 w2 : Bool) (p1 p2 : CallResult Unit)
    (store : List Claim) :
    (verifySnapshot req ⟨tip, now, bal, ver, w1, p1⟩ store).response
      = (verifySnapshot req ⟨tip, now, bal, ver, w2, p2⟩ store).response ∧
    (verifySnapshot req ⟨tip, now, bal, ver, w1, p1⟩ store).store
      = (verifySnapshot req ⟨tip, now, bal, ver, w2, p2⟩ store).store ∧
    ((verifySnapshot req ⟨tip, now, bal, ver, w1, p1⟩ store).response.status = 200 →
      (verifySnapshot req ⟨tip, now, bal, ver, w1, p1⟩ store).notify
          = some (sendSnapshotVerificationNotification
              req.x42_address req.snapshot_balance w1 p1) ∧
      (∀ d, (sendSnapshotVerificationNotification
            req.x42_address req.snapshot_balance w1 p1).2 = some d →
          d = ⟨req.x42_address, req.snapshot_balance⟩) ∧
      (verifySnapshot req ⟨tip, now, bal, ver, w1, p1⟩ store).store
          = store ++ [⟨req.signature.getD "", req.x42_address,
              req.epix_address, req.snapshot_balance⟩]) := by
  unfold verifySnapshot
  split
  · exact ⟨rfl, rfl, by intro h; simp at h⟩
  · cases tip with
    | throw => exact ⟨rfl, rfl, by intro h; simp at h⟩
    | ok d =>
        simp only
        split
        · exact ⟨rfl, rfl, by intro h; simp at h⟩
        · split
          · exact ⟨rfl, rfl, by intro h; simp at h⟩
          · split
            · exact ⟨rfl, rfl, by intro h; simp at h⟩
            · split
              · exact ⟨rfl, rfl, by intro h; simp at h⟩
              · cases bal with
                | throw => exact ⟨rfl, rfl, by intro h; simp at h⟩
                | ok b =>
                    simp only
                    split
                    · exact ⟨rfl, rfl, by intro h; simp at h⟩
                    · cases ver with
                      | throw => exact ⟨rfl, rfl, by intro h; simp at h⟩
                      | ok v =>
                          simp only
                          split
                          · exact ⟨rfl, rfl, by intro h; simp at h⟩
                          · rw [storeInsert_eq]
                            exact ⟨rfl, rfl, fun _ => ⟨rfl, notify_payload _ _ _ _, rfl⟩⟩

/-- Witness for `notify_decoupled`: a succeeding submission with the webhook
configured-and-resolving versus unset-and-rejecting. -/
theorem notify_decoupled_witness :
    (verifySnapshot ⟨"X1", "E1", 5, some "s"⟩
        ⟨.ok (some 3000000), 0, .ok 5, .ok "True", true, .ok ()⟩ []).response
      = (verifySnapshot ⟨"X1", "E1", 5, some "s"⟩
          ⟨.ok (some 3000000), 0, .ok 5, .ok "True", false, .throw⟩ []).response ∧
    (verifySnapshot ⟨"X1", "E1", 5, some "s"⟩
        ⟨.ok (some 3000000), 0, .ok 5, .ok "True", true, .ok ()⟩ []).store
      = (verifySnapshot ⟨"X1", "E1", 5, some "s"⟩
          ⟨.ok (some 3000000), 0, .ok 5, .ok "True", false, .throw⟩ []).store ∧
    ((verifySnapshot ⟨"X1", "E1", 5, some "s"⟩
        ⟨.ok (some 3000000), 0, .ok 5, .ok "True", true, .ok ()⟩ []).response.status = 200 →
      (verifySnapshot ⟨"X1", "E1", 5, some "s"⟩
          ⟨.ok (some 3000000), 0, .ok 5, .ok "True", true, .ok ()⟩ []).notify
        = some (sendSnapshotVerificationNotification "X1" 5 true (.ok ())) ∧
      (∀ d, (sendSnapshotVerificationNotification "X1" 5 true (.ok ())).2 = some d →
        d = ⟨"X1", 5⟩) ∧
      (verifySnapshot ⟨"X1", "E1", 5, some "s"⟩
          ⟨.ok (some 3000000), 0, .ok 5, .ok "True", true, .ok ()⟩ []).store
        = [] ++ [⟨(Option.some "s").getD "", "X1", "E1", 5⟩]) :=
  notify_decoupled ⟨"X1", "E1", 5, some "s"⟩
    (.ok (some 3000000)) 0 (.ok 5) (.ok "True") true false (.ok ()) .throw []

/-- Witness for `nonlast_final_le_original` at cap 5 and entries
`[(a,3), (b,7)]` (total 10 over the cap). -/
theorem nonlast_final_le_original_witness :
    multiplierBigInt 5 (sumBalances [(("a" : String), (3 : Nat)), ("b", 7)]) ≤ SCALE ∧
    (sumBalances [(("a" : String), (3 : Nat)), ("b", 7)] ≤ 5 →
      multiplierBigInt 5 (sumBalances [(("a" : String), (3 : Nat)), ("b", 7)]) = SCALE) ∧
    (sumBalances [(("a" : String), (3 : Nat)), ("b", 7)] > 5 →
      multiplierBigInt 5 (sumBalances [(("a" : String), (3 : Nat)), ("b", 7)]) < SCALE) ∧
    (∀ i (h1 : i < ((redistribute 5
            (multiplierBigInt 5 (sumBalances [(("a" : String), (3 : Nat)), ("b", 7)]))
            0 [(("a" : String), (3 : Nat)), ("b", 7)]).dropLast).length)
        (h2 : i < ([(("a" : String), (3 : Nat)), ("b", 7)].dropLast).length),
      ((redistribute 5
          (multiplierBigInt 5 (sumBalances [(("a" : String), (3 : Nat)), ("b", 7)]))
          0 [(("a" : String), (3 : Nat)), ("b", 7)]).dropLast)[i].2
        ≤ ([(("a" : String), (3 : Nat)), ("b", 7)].dropLast)[i].2) :=
  nonlast_final_le_original 5 [("a", 3), ("b", 7)]

end Claimer
